import Mathlib

/-!
Verification of the `pdf-creator` manual PDF writer (`src/pdf-creator/src/manual.rs`).

The Rust program builds a fixed five-object PDF (catalog, page tree, page,
content stream, font) around a caller-supplied text string and serializes it
with a cross-reference table and trailer.  We embed the data model and the
serializer shallowly:

* Rust `String` values are Lean `String`s; `String::len` (a UTF-8 **byte**
  count in Rust) is modelled by `rustLen`, the length of the UTF-8 encoding.
* The output file is a `List Nat` of bytes (each < 256 for valid input).
* The fallible sink (`File::create`, `write_all`, `stream_position`) is
  modelled by a run of 20 sink operations against an oracle `m : Nat → Bool`
  telling which operation succeeds; the writer state carries the bytes
  written so far, the recorded object offsets, and the recorded xref
  position.  `stream_position` returns the number of bytes written so far,
  exactly as for a freshly created (truncated) file.
-/

set_option maxRecDepth 10000

/-- UTF-8 encoding of a single character (standard four-range encoding). -/
def utf8Char (c : Char) : List Nat :=
  let n := c.toNat
  if n < 0x80 then [n]
  else if n < 0x800 then [0xC0 + n / 64, 0x80 + n % 64]
  else if n < 0x10000 then [0xE0 + n / 4096, 0x80 + (n / 64) % 64, 0x80 + n % 64]
  else [0xF0 + n / 262144, 0x80 + (n / 4096) % 64, 0x80 + (n / 64) % 64, 0x80 + n % 64]

/-- The UTF-8 bytes of a string, as natural numbers. -/
def strBytes (s : String) : List Nat :=
  (s.data.map utf8Char).flatten

/-- Rust's `String::len`: the number of UTF-8 bytes (not characters). -/
def rustLen (s : String) : Nat :=
  (strBytes s).length

/-! ## The data model (structs of `manual.rs`) -/

/-- Rust `struct ObjectRef { id: u32, generation: u16 }`; all values in this
program are small constants, far below either overflow bound. -/
structure ObjectRef where
  id : Nat
  generation : Nat
deriving DecidableEq

/-- Rust `struct Catalog { pages: ObjectRef }`. -/
structure Catalog where
  pages : ObjectRef
deriving DecidableEq

/-- Rust `struct Pages { kids: Vec<ObjectRef>, count: usize }`. -/
structure Pages where
  kids : List ObjectRef
  count : Nat
deriving DecidableEq

/-- Rust `struct FontResources { name: String, object: ObjectRef }`. -/
structure FontResources where
  name : String
  object : ObjectRef
deriving DecidableEq

/-- Rust `struct Page`.  The source stores `media_box: [f32; 4]`; the only values
ever put there are the integral constants `[0.0, 0.0, 595.0, 842.0]`, whose
Rust `Display` renderings are the decimal integers `0`, `0`, `595`, `842`,
so we carry the box as the corresponding naturals. -/
structure Page where
  parent : ObjectRef
  media_box : List Nat
  contents : ObjectRef
  font_resources : FontResources
deriving DecidableEq

/-- Rust `struct ContentStream { content: String }`. -/
structure ContentStream where
  content : String
deriving DecidableEq

/-- Rust `enum PdfVersion { Pdf14 }`. -/
inductive PdfVersion where
  | Pdf14
deriving DecidableEq

/-- Rust `struct PdfDocument`. -/
structure PdfDocument where
  version : PdfVersion
  catalog : Catalog
  pages : Pages
  page : Page
  contents : ContentStream

/-! ## The per-object serializers (`to_string` impls) -/

def PdfVersion.to_str : PdfVersion → String
  | .Pdf14 => "%PDF-1.4\n"

def Catalog.to_string (c : Catalog) : String :=
  "1 0 obj\n<< /Type /Catalog /Pages " ++ Nat.repr c.pages.id ++ " " ++
    Nat.repr c.pages.generation ++ " R >>\nendobj\n"

/-- Rust `Pages::to_string` begins with `assert_eq!(self.kids.len(), self.count)`
and `assert_eq!(self.count, 1)` and then indexes `self.kids[0]`; a failed
assertion is a Rust panic, which we model as `none`. -/
def Pages.to_string (p : Pages) : Option String :=
  if p.kids.length = p.count then
    if p.count = 1 then
      p.kids.head?.map fun k =>
        "2 0 obj\n<< /Type /Pages /Kids [" ++ Nat.repr k.id ++ " " ++
          Nat.repr k.generation ++ " R] /Count " ++ Nat.repr p.count ++
          " >>\nendobj\n"
    else none
  else none

/-- Rust `Page::to_string` (the source format string uses a `\`-line-continuation,
so the rendered text has a single space before `/Contents`). -/
def Page.to_string (p : Page) : String :=
  "3 0 obj\n<< /Type /Page /Parent " ++ Nat.repr p.parent.id ++ " " ++
    Nat.repr p.parent.generation ++ " R /MediaBox [" ++
    Nat.repr (p.media_box.getD 0 0) ++ " " ++ Nat.repr (p.media_box.getD 1 0) ++ " " ++
    Nat.repr (p.media_box.getD 2 0) ++ " " ++ Nat.repr (p.media_box.getD 3 0) ++
    "] /Contents " ++ Nat.repr p.contents.id ++ " " ++
    Nat.repr p.contents.generation ++ " R /Resources << /Font << /" ++
    p.font_resources.name ++ " " ++ Nat.repr p.font_resources.object.id ++ " " ++
    Nat.repr p.font_resources.object.generation ++ " R >> >> >>\nendobj\n"

/-- The inner operator block `format!("BT\n/F1 24 Tf\n100 700 Td\n({}) Tj\nET\n", self.content)`. -/
def ContentStream.stream (cs : ContentStream) : String :=
  "BT\n/F1 24 Tf\n100 700 Td\n(" ++ cs.content ++ ") Tj\nET\n"

/-- Rust `ContentStream::to_string`: declares `/Length stream.len()`, which in
Rust is the UTF-8 **byte** length of the block. -/
def ContentStream.to_string (cs : ContentStream) : String :=
  "4 0 obj\n<< /Length " ++ Nat.repr (rustLen cs.stream) ++
    " >>\nstream\n" ++ cs.stream ++ "endstream\nendobj\n"

/-- The literal fifth object written by `create`. -/
def fontObjStr : String :=
  "5 0 obj\n<< /Type /Font /Subtype /Type1 /BaseFont /Helvetica >>\nendobj\n"

/-- Rust's `format!("{:010}", n)`: the decimal rendering of `n`,
left-padded with zeros to a minimum width of 10. -/
def pad10 (n : Nat) : String :=
  String.mk (List.replicate (10 - (Nat.repr n).length) '0') ++ Nat.repr n

/-- Rust `PdfDocument::new`. -/
def PdfDocument.new (content : String) : PdfDocument where
  version := .Pdf14
  catalog := { pages := { id := 2, generation := 0 } }
  pages := { kids := [{ id := 3, generation := 0 }], count := 1 }
  page :=
    { parent := { id := 2, generation := 0 }
      media_box := [0, 0, 595, 842]
      contents := { id := 4, generation := 0 }
      font_resources := { name := "F1", object := { id := 5, generation := 0 } } }
  contents := { content := content }

/-! ## The fallible sink and `PdfDocument::create`

`create` performs exactly 20 sink operations, in this order:

| index | operation |
|---|---|
| 0 | `File::create("./manual.pdf")` |
| 1 | `write_all` of the version header |
| 2,4,6,8,10 | `stream_position` before each of the five objects |
| 3,5,7,9,11 | `write_all` of each of the five objects |
| 12 | `stream_position` for `xref_pos` |
| 13 | `write_all` of `"xref\n0 6\n0000000000 65535 f\n"` |
| 14–18 | `write_all` of the five xref entry lines |
| 19 | `write_all` of the trailer/`startxref`/`%%EOF` block |

Each operation either succeeds (oracle says `true` at its index) or fails,
in which case `create` returns at once with the `?` operator. -/

/-- Writer state: bytes written so far, the `offsets` vector, the
`xref_pos` variable, and how many sink operations have completed. -/
structure WState where
  buf : List Nat
  offsets : List Nat
  xrefPos : Nat
  opCount : Nat
deriving DecidableEq

def initState : WState := { buf := [], offsets := [], xrefPos := 0, opCount := 0 }

/-- A successful `write_all(s.as_bytes())`. -/
def writeOp (f : WState → String) : WState → WState :=
  fun s => { s with buf := s.buf ++ strBytes (f s) }

/-- A successful `offsets.push(file.stream_position()?)` (the position of a
freshly created file equals the number of bytes written so far). -/
def posOp : WState → WState :=
  fun s => { s with offsets := s.offsets ++ [s.buf.length] }

/-- A successful `let xref_pos = file.stream_position()?`. -/
def xrefPosOp : WState → WState :=
  fun s => { s with xrefPos := s.buf.length }

/-- A successful `File::create` (writes nothing). -/
def createFileOp : WState → WState := fun s => s

/-- The 20 sink operations of `PdfDocument::create`, in program order.
`Pages::to_string` is total on every document this program builds (its
assertions hold, see `pages_assertions_hold`); the `getD` defaults here and
in the entry lines are unreachable for such documents. -/
def opsList (doc : PdfDocument) : List (WState → WState) :=
  [ createFileOp,
    writeOp (fun _ => doc.version.to_str),
    posOp, writeOp (fun _ => doc.catalog.to_string),
    posOp, writeOp (fun _ => (doc.pages.to_string).getD ""),
    posOp, writeOp (fun _ => doc.page.to_string),
    posOp, writeOp (fun _ => doc.contents.to_string),
    posOp, writeOp (fun _ => fontObjStr),
    xrefPosOp,
    writeOp (fun _ => "xref\n0 6\n0000000000 65535 f\n"),
    writeOp (fun s => pad10 (s.offsets.getD 0 0) ++ " 00000 n\n"),
    writeOp (fun s => pad10 (s.offsets.getD 1 0) ++ " 00000 n\n"),
    writeOp (fun s => pad10 (s.offsets.getD 2 0) ++ " 00000 n\n"),
    writeOp (fun s => pad10 (s.offsets.getD 3 0) ++ " 00000 n\n"),
    writeOp (fun s => pad10 (s.offsets.getD 4 0) ++ " 00000 n\n"),
    writeOp (fun s =>
      "trailer\n<< /Size 6 /Root 1 0 R >>\nstartxref\n" ++ Nat.repr s.xrefPos ++ "\n%%EOF") ]

/-- Run the operations against a success oracle `m` (operation `i` succeeds
iff `m i = true`); on the first failure stop at once and return the state at
that point as the error, mirroring the `?` operator. -/
def runOps (m : Nat → Bool) : List (WState → WState) → WState → Except WState WState
  | [], s => .ok s
  | op :: rest, s =>
      if m s.opCount then runOps m rest { op s with opCount := s.opCount + 1 }
      else .error s

/-- Run the operations assuming every one succeeds. -/
def runAll (ops : List (WState → WState)) (s : WState) : WState :=
  ops.foldl (fun s op => { op s with opCount := s.opCount + 1 }) s

/-- Rust `PdfDocument::create` against a sink whose operation `i` succeeds iff
`m i = true`. -/
def PdfDocument.create (m : Nat → Bool) (doc : PdfDocument) : Except WState WState :=
  runOps m (opsList doc) initState

/-- The final writer state of a fully successful run. -/
def createPure (doc : PdfDocument) : WState :=
  runAll (opsList doc) initState

/-- The bytes of the produced file for input text `t`. -/
def createBytes (t : String) : List Nat :=
  (createPure (PdfDocument.new t)).buf

/-- The five offsets recorded by the writer for input text `t`. -/
def offsetsOf (t : String) : List Nat :=
  (createPure (PdfDocument.new t)).offsets

/-- The `xref_pos` captured just before the xref section for input text `t`. -/
def xrefPosOf (t : String) : Nat :=
  (createPure (PdfDocument.new t)).xrefPos

/-! ## The concrete shape of the output

Named constants for the pieces of the produced file, and a decomposition
lemma computing the full run for an arbitrary input text. -/

def headerStr : String := "%PDF-1.4\n"

def catStr : String := "1 0 obj\n<< /Type /Catalog /Pages 2 0 R >>\nendobj\n"

def pgsStr : String := "2 0 obj\n<< /Type /Pages /Kids [3 0 R] /Count 1 >>\nendobj\n"

def pgStr : String :=
  "3 0 obj\n<< /Type /Page /Parent 2 0 R /MediaBox [0 0 595 842] /Contents 4 0 R /Resources << /Font << /F1 5 0 R >> >> >>\nendobj\n"

/-- The text-showing operator block for input `t`. -/
def streamBody (t : String) : String :=
  "BT\n/F1 24 Tf\n100 700 Td\n(" ++ t ++ ") Tj\nET\n"

/-- The fourth indirect object for input `t`. -/
def contStr (t : String) : String :=
  "4 0 obj\n<< /Length " ++ Nat.repr (rustLen (streamBody t)) ++
    " >>\nstream\n" ++ streamBody t ++ "endstream\nendobj\n"

def xrefFixed : String := "xref\n0 6\n0000000000 65535 f\n"

/-- One in-use xref entry line. -/
def entryStr (off : Nat) : String := pad10 off ++ " 00000 n\n"

/-- The trailer / `startxref` / `%%EOF` block for xref position `p`. -/
def trailerStr (p : Nat) : String :=
  "trailer\n<< /Size 6 /Root 1 0 R >>\nstartxref\n" ++ Nat.repr p ++ "\n%%EOF"

def o1 : Nat := rustLen headerStr
def o2 : Nat := o1 + rustLen catStr
def o3 : Nat := o2 + rustLen pgsStr
def o4 : Nat := o3 + rustLen pgStr
def o5 (t : String) : Nat := o4 + rustLen (contStr t)
def xrOf (t : String) : Nat := o5 t + rustLen fontObjStr

/-- Predicate `bytesAt l p pat`: the bytes of `l` starting at position `p` begin with
the pattern `pat`. -/
def bytesAt (l : List Nat) (p : Nat) (pat : List Nat) : Prop :=
  (l.drop p).take pat.length = pat

instance (l : List Nat) (p : Nat) (pat : List Nat) : Decidable (bytesAt l p pat) := by
  unfold bytesAt; infer_instance

/-- Everything in the output before the `startxref` keyword. -/
def preStartxrefBytes (t : String) : List Nat :=
  strBytes headerStr ++ strBytes catStr ++ strBytes pgsStr ++ strBytes pgStr ++
    strBytes (contStr t) ++ strBytes fontObjStr ++ strBytes xrefFixed ++
    strBytes (entryStr o1) ++ strBytes (entryStr o2) ++ strBytes (entryStr o3) ++
    strBytes (entryStr o4) ++ strBytes (entryStr (o5 t)) ++
    strBytes "trailer\n<< /Size 6 /Root 1 0 R >>\n"

/-- Everything in the output before the first in-use xref entry line. -/
def c10Pre (t : String) : List Nat :=
  strBytes headerStr ++ strBytes catStr ++ strBytes pgsStr ++ strBytes pgStr ++
    strBytes (contStr t) ++ strBytes fontObjStr ++ strBytes xrefFixed

/-- Everything in the output after the first in-use xref entry line. -/
def c10Suf (t : String) : List Nat :=
  strBytes (entryStr o2) ++ strBytes (entryStr o3) ++ strBytes (entryStr o4) ++
    strBytes (entryStr (o5 t)) ++ strBytes (trailerStr (xrOf t))

/-- A sink on which every operation succeeds. -/
def allOk : Nat → Bool := fun _ => true

/-- A sink whose sixth operation (index 5, the `write_all` of the page-tree
object) fails and all others succeed. -/
def failAt5 : Nat → Bool := fun i => i != 5

/-- The writer state right before the failing operation of `failAt5`. -/
def sErr : WState := runAll ((opsList (PdfDocument.new "Hi")).take 5) initState

/-! ## Basic facts about the byte encoding -/

theorem strBytes_append (s t : String) :
    strBytes (s ++ t) = strBytes s ++ strBytes t := by
  simp [strBytes, String.data_append]

theorem rustLen_append (s t : String) :
    rustLen (s ++ t) = rustLen s + rustLen t := by
  simp [rustLen, strBytes_append]

theorem new_version_str (t : String) :
    (PdfDocument.new t).version.to_str = headerStr := rfl

theorem catalog_fixed_str :
    Catalog.to_string { pages := { id := 2, generation := 0 } } = catStr := by decide

theorem pages_fixed_str :
    Pages.to_string { kids := [{ id := 3, generation := 0 }], count := 1 } =
      some pgsStr := by decide

set_option maxHeartbeats 1000000 in
theorem page_fixed_str :
    Page.to_string
      { parent := { id := 2, generation := 0 }
        media_box := [0, 0, 595, 842]
        contents := { id := 4, generation := 0 }
        font_resources := { name := "F1", object := { id := 5, generation := 0 } } } =
      pgStr := by decide

theorem new_catalog_str (t : String) :
    (PdfDocument.new t).catalog.to_string = catStr := catalog_fixed_str

theorem new_pages_str (t : String) :
    (PdfDocument.new t).pages.to_string = some pgsStr := pages_fixed_str

theorem new_page_str (t : String) :
    (PdfDocument.new t).page.to_string = pgStr := page_fixed_str

theorem new_contents_str (t : String) :
    (PdfDocument.new t).contents.to_string = contStr t := rfl

theorem new_stream_body (t : String) :
    (PdfDocument.new t).contents.stream = streamBody t := rfl

/-- Full computation of a successful run of `create` on `new t`. -/
theorem createPure_new (t : String) :
    createPure (PdfDocument.new t) =
      { buf := strBytes headerStr ++ strBytes catStr ++ strBytes pgsStr ++
          strBytes pgStr ++ strBytes (contStr t) ++ strBytes fontObjStr ++
          strBytes xrefFixed ++ strBytes (entryStr o1) ++ strBytes (entryStr o2) ++
          strBytes (entryStr o3) ++ strBytes (entryStr o4) ++
          strBytes (entryStr (o5 t)) ++ strBytes (trailerStr (xrOf t)),
        offsets := [o1, o2, o3, o4, o5 t],
        xrefPos := xrOf t,
        opCount := 20 } := by
  simp only [createPure, runAll, opsList, writeOp, posOp, xrefPosOp,
    createFileOp, initState, List.foldl_cons, List.foldl_nil,
    new_version_str, new_catalog_str, new_pages_str, new_page_str,
    new_contents_str, Option.getD_some, xrefFixed, entryStr, trailerStr,
    o1, o2, o3, o4, o5, xrOf, rustLen, strBytes_append,
    List.getD_cons_zero, List.getD_cons_succ, List.nil_append,
    List.singleton_append, List.cons_append, List.append_assoc,
    List.length_append, Nat.add_assoc]

theorem createBytes_eq (t : String) :
    createBytes t =
      strBytes headerStr ++ strBytes catStr ++ strBytes pgsStr ++
        strBytes pgStr ++ strBytes (contStr t) ++ strBytes fontObjStr ++
        strBytes xrefFixed ++ strBytes (entryStr o1) ++ strBytes (entryStr o2) ++
        strBytes (entryStr o3) ++ strBytes (entryStr o4) ++
        strBytes (entryStr (o5 t)) ++ strBytes (trailerStr (xrOf t)) := by
  rw [createBytes, createPure_new]

theorem offsetsOf_eq (t : String) :
    offsetsOf t = [o1, o2, o3, o4, o5 t] := by
  rw [offsetsOf, createPure_new]

theorem xrefPosOf_eq (t : String) : xrefPosOf t = xrOf t := by
  rw [xrefPosOf, createPure_new]

/-! ## Byte positions inside a byte list -/

theorem bytesAt_congr (l : List Nat) (p q : Nat) (pat : List Nat)
    (h : bytesAt l p pat) (hq : q = p) : bytesAt l q pat := hq ▸ h

theorem bytesAt_skip (A B : List Nat) (p : Nat) (pat : List Nat)
    (h : bytesAt B p pat) : bytesAt (A ++ B) (A.length + p) pat := by
  unfold bytesAt at h ⊢
  rw [List.drop_append, h]

theorem bytesAt_start (B C pat : List Nat) (hle : pat.length ≤ B.length)
    (hB : B.take pat.length = pat) : bytesAt (B ++ C) 0 pat := by
  unfold bytesAt
  rw [List.drop_zero, List.take_append_of_le_length hle, hB]

/-! ## Generic facts about `runOps` -/

theorem runAll_cons (op : WState → WState) (ops : List (WState → WState)) (s : WState) :
    runAll (op :: ops) s = runAll ops { op s with opCount := s.opCount + 1 } := rfl

theorem runOps_ok (m : Nat → Bool) (ops : List (WState → WState)) (s0 s : WState)
    (h : runOps m ops s0 = .ok s) :
    (∀ i, s0.opCount ≤ i → i < s0.opCount + ops.length → m i = true) ∧
      s = runAll ops s0 := by
  induction ops generalizing s0 with
  | nil =>
      simp only [runOps, Except.ok.injEq] at h
      refine ⟨fun i h1 h2 => ?_, h.symm⟩
      simp only [List.length_nil] at h2
      omega
  | cons op ops ih =>
      by_cases hm : m s0.opCount = true
      · rw [runOps, if_pos hm] at h
        obtain ⟨h1, h2⟩ := ih _ h
        simp only [WState.opCount] at h1
        refine ⟨fun i hi1 hi2 => ?_, by rw [h2, runAll_cons]⟩
        simp only [List.length_cons] at hi2
        rcases Nat.eq_or_lt_of_le hi1 with heq | hlt
        · exact heq ▸ hm
        · exact h1 i (by omega) (by omega)
      · rw [runOps, if_neg hm] at h
        exact absurd h (by simp)

theorem runOps_error (m : Nat → Bool) (ops : List (WState → WState)) (s0 s : WState)
    (h : runOps m ops s0 = .error s) :
    m s.opCount = false ∧ s0.opCount ≤ s.opCount ∧
      s.opCount < s0.opCount + ops.length ∧
      (∀ i, s0.opCount ≤ i → i < s.opCount → m i = true) ∧
      s = runAll (ops.take (s.opCount - s0.opCount)) s0 := by
  induction ops generalizing s0 with
  | nil => simp [runOps] at h
  | cons op ops ih =>
      by_cases hm : m s0.opCount = true
      · rw [runOps, if_pos hm] at h
        obtain ⟨h1, h2, h3, h4, h5⟩ := ih _ h
        simp only [WState.opCount] at h2 h3 h4 h5
        refine ⟨h1, by omega, ?_, fun i hi1 hi2 => ?_, ?_⟩
        · simp only [List.length_cons]
          omega
        · rcases Nat.eq_or_lt_of_le hi1 with heq | hlt
          · exact heq ▸ hm
          · exact h4 i (by omega) hi2
        · have hk : s.opCount - s0.opCount = (s.opCount - (s0.opCount + 1)) + 1 := by
            omega
          rw [hk, List.take_succ_cons, runAll_cons]
          exact h5
      · rw [runOps, if_neg hm] at h
        simp only [Except.error.injEq] at h
        subst h
        refine ⟨by simpa using hm, le_refl _, ?_, fun i hi1 hi2 => absurd hi2 (by omega), ?_⟩
        · simp only [List.length_cons]
          omega
        · simp [runAll]

theorem runOps_all_ok (m : Nat → Bool) (ops : List (WState → WState)) (s0 : WState)
    (h : ∀ i, s0.opCount ≤ i → i < s0.opCount + ops.length → m i = true) :
    runOps m ops s0 = .ok (runAll ops s0) := by
  induction ops generalizing s0 with
  | nil => simp [runOps, runAll]
  | cons op ops ih =>
      have hm : m s0.opCount = true :=
        h s0.opCount (le_refl _) (by simp only [List.length_cons]; omega)
      rw [runOps, if_pos hm, runAll_cons]
      refine ih _ (fun i hi1 hi2 => ?_)
      simp only [WState.opCount] at hi1 hi2
      exact h i (by omega) (by simp only [List.length_cons]; omega)

/-! ## String-splitting facts for the fixed pieces -/

theorem xrefFixed_split :
    strBytes xrefFixed =
      strBytes "xref\n" ++ strBytes "0 6\n" ++ strBytes "0000000000 65535 f\n" := by
  decide

theorem trailer_split (p : Nat) :
    strBytes (trailerStr p) =
      strBytes "trailer\n<< /Size 6 /Root 1 0 R >>\n" ++ strBytes "startxref\n" ++
        strBytes (Nat.repr p) ++ strBytes "\n" ++ strBytes "%%EOF" := by
  have h1 : strBytes "trailer\n<< /Size 6 /Root 1 0 R >>\nstartxref\n" =
      strBytes "trailer\n<< /Size 6 /Root 1 0 R >>\n" ++ strBytes "startxref\n" := by
    decide
  have h2 : strBytes "\n%%EOF" = strBytes "\n" ++ strBytes "%%EOF" := by decide
  simp only [trailerStr, strBytes_append, h1, h2, List.append_assoc]

/-! ## The claims -/

/-- C1: for each of the five indirect objects (catalog=1, page tree=2,
page=3, content stream=4, font=5, serialized in ascending id order), the
offset recorded by the writer immediately before emitting that object
equals the byte offset, from the start of the output, at which that
object's leading `"<id> 0 obj"` line begins (every object has generation 0). -/
theorem c1_offsets_point_at_objects (t : String) (i : Nat) (h : i < 5) :
    (offsetsOf t).length = 5 ∧
    bytesAt (createBytes t) ((offsetsOf t).getD i 0)
      (strBytes (Nat.repr (i + 1) ++ " 0 obj")) := by
  refine ⟨by rw [offsetsOf_eq]; rfl, ?_⟩
  rw [createBytes_eq, offsetsOf_eq]
  simp only [List.append_assoc]
  interval_cases i
  · simp only [List.getD_cons_zero]
    exact bytesAt_congr _ _ _ _
      (bytesAt_skip _ _ _ _
        (bytesAt_start (strBytes catStr) _ _ (by decide) (by decide)))
      (by simp only [o1, rustLen]; omega)
  · simp only [List.getD_cons_zero, List.getD_cons_succ]
    exact bytesAt_congr _ _ _ _
      (bytesAt_skip _ _ _ _ (bytesAt_skip _ _ _ _
        (bytesAt_start (strBytes pgsStr) _ _ (by decide) (by decide))))
      (by simp only [o2, o1, rustLen]; omega)
  · simp only [List.getD_cons_zero, List.getD_cons_succ]
    exact bytesAt_congr _ _ _ _
      (bytesAt_skip _ _ _ _ (bytesAt_skip _ _ _ _ (bytesAt_skip _ _ _ _
        (bytesAt_start (strBytes pgStr) _ _ (by decide) (by decide)))))
      (by simp only [o3, o2, o1, rustLen]; omega)
  · simp only [List.getD_cons_zero, List.getD_cons_succ]
    simp only [contStr, strBytes_append, List.append_assoc]
    exact bytesAt_congr _ _ _ _
      (bytesAt_skip _ _ _ _ (bytesAt_skip _ _ _ _ (bytesAt_skip _ _ _ _
        (bytesAt_skip _ _ _ _
          (bytesAt_start (strBytes "4 0 obj\n<< /Length ") _ _
            (by decide) (by decide))))))
      (by simp only [o4, o3, o2, o1, rustLen]; omega)
  · simp only [List.getD_cons_zero, List.getD_cons_succ]
    exact bytesAt_congr _ _ _ _
      (bytesAt_skip _ _ _ _ (bytesAt_skip _ _ _ _ (bytesAt_skip _ _ _ _
        (bytesAt_skip _ _ _ _ (bytesAt_skip _ _ _ _
          (bytesAt_start (strBytes fontObjStr) _ _ (by decide) (by decide)))))))
      (by simp only [o5, o4, o3, o2, o1, rustLen]; omega)

/-- Witness for C1 at `t = "Hello"`, `i = 3` (the content stream, id 4). -/
theorem c1_witness :
    (offsetsOf "Hello").length = 5 ∧
    bytesAt (createBytes "Hello") ((offsetsOf "Hello").getD 3 0)
      (strBytes (Nat.repr (3 + 1) ++ " 0 obj")) :=
  c1_offsets_point_at_objects "Hello" 3 (by decide)

/-- C2: for any ascii input text `t` containing no parentheses or
backslashes, the content-stream operator block is the fixed template with
`t` substituted verbatim, and the `/Length` value declared in object 4's
dictionary is the decimal rendering of the exact byte length of that
block. -/
theorem c2_content_stream_template (t : String)
    (h : ∀ c ∈ t.data, c.toNat < 128 ∧ c ≠ '(' ∧ c ≠ ')' ∧ c ≠ '\\') :
    strBytes ((PdfDocument.new t).contents.stream) =
      strBytes "BT\n/F1 24 Tf\n100 700 Td\n(" ++ strBytes t ++
        strBytes ") Tj\nET\n" ∧
    (PdfDocument.new t).contents.to_string =
      "4 0 obj\n<< /Length " ++
        Nat.repr ((strBytes ((PdfDocument.new t).contents.stream)).length) ++
        " >>\nstream\n" ++ (PdfDocument.new t).contents.stream ++
        "endstream\nendobj\n" := by
  constructor
  · rw [new_stream_body]
    simp only [streamBody, strBytes_append, List.append_assoc]
  · rfl

/-- Witness for C2 at `t = "Hello"`. -/
theorem c2_witness :
    (∀ c ∈ "Hello".data, c.toNat < 128 ∧ c ≠ '(' ∧ c ≠ ')' ∧ c ≠ '\\') ∧
    (strBytes ((PdfDocument.new "Hello").contents.stream) =
      strBytes "BT\n/F1 24 Tf\n100 700 Td\n(" ++ strBytes "Hello" ++
        strBytes ") Tj\nET\n" ∧
    (PdfDocument.new "Hello").contents.to_string =
      "4 0 obj\n<< /Length " ++
        Nat.repr ((strBytes ((PdfDocument.new "Hello").contents.stream)).length) ++
        " >>\nstream\n" ++ (PdfDocument.new "Hello").contents.stream ++
        "endstream\nendobj\n") :=
  ⟨by decide, c2_content_stream_template "Hello" (by decide)⟩

/-- C3: for every input text, the produced file is byte-exact in its fixed
parts: `"%PDF-1.4\n"` header, the five objects in ascending id order, the
xref section `"xref\n"`, the subsection header `"0 6\n"`, the free entry
`"0000000000 65535 f\n"`, one `"<offset padded to 10 digits> 00000 n\n"`
line per recorded offset in ascending id order, the trailer dictionary
declaring size 6 and root `1 0 R`, `"startxref\n<offset>\n"`, and the
final `"%%EOF"` with nothing (in particular no newline) after it. -/
theorem c3_file_layout (t : String) :
    createBytes t =
      strBytes "%PDF-1.4\n" ++
      (strBytes catStr ++ strBytes pgsStr ++ strBytes pgStr ++
        strBytes (contStr t) ++ strBytes fontObjStr) ++
      strBytes "xref\n" ++ strBytes "0 6\n" ++ strBytes "0000000000 65535 f\n" ++
      ((offsetsOf t).map (fun off => strBytes (pad10 off ++ " 00000 n\n"))).flatten ++
      strBytes "trailer\n<< /Size 6 /Root 1 0 R >>\n" ++
      strBytes "startxref\n" ++ strBytes (Nat.repr (xrefPosOf t)) ++
      strBytes "\n" ++ strBytes "%%EOF" := by
  rw [createBytes_eq, offsetsOf_eq, xrefPosOf_eq]
  simp only [headerStr, List.map_cons, List.map_nil, List.flatten_cons,
    List.flatten_nil, entryStr, strBytes_append, xrefFixed_split,
    trailer_split, List.append_assoc, List.append_nil]

/-- C4: for every input text, the value written after the `startxref`
keyword is the decimal rendering of the recorded xref position (captured
immediately before the xref section is written), and the literal `"xref"`
keyword begins at exactly that byte offset in the produced file. -/
theorem c4_startxref_points_at_xref (t : String) :
    createBytes t =
      preStartxrefBytes t ++ strBytes "startxref\n" ++
        strBytes (Nat.repr (xrefPosOf t)) ++ strBytes "\n" ++ strBytes "%%EOF" ∧
    bytesAt (createBytes t) (xrefPosOf t) (strBytes "xref") := by
  constructor
  · rw [createBytes_eq, xrefPosOf_eq]
    simp only [preStartxrefBytes, trailer_split, List.append_assoc]
  · rw [createBytes_eq, xrefPosOf_eq]
    simp only [List.append_assoc]
    exact bytesAt_congr _ _ _ _
      (bytesAt_skip _ _ _ _ (bytesAt_skip _ _ _ _ (bytesAt_skip _ _ _ _
        (bytesAt_skip _ _ _ _ (bytesAt_skip _ _ _ _ (bytesAt_skip _ _ _ _
          (bytesAt_start (strBytes xrefFixed) _ _ (by decide) (by decide))))))))
      (by simp only [xrOf, o5, o4, o3, o2, o1, rustLen]; omega)

/-- C5 counterexample: the operator block for `"Hello"` is not 37 bytes
long (it is 38, so the claim's stated size and `/Length` value are off by
one). -/
theorem c5_counterexample :
    (strBytes (ContentStream.stream { content := "Hello" })).length ≠ 37 := by
  decide

/-- C5 (amended): for input `"Hello"`, the operator block's bytes equal
`"BT\n/F1 24 Tf\n100 700 Td\n(Hello) Tj\nET\n"`, that block is 38 bytes
long, and object 4's declared `/Length` field reads 38. -/
theorem c5_hello_block :
    strBytes (ContentStream.stream { content := "Hello" }) =
      strBytes "BT\n/F1 24 Tf\n100 700 Td\n(Hello) Tj\nET\n" ∧
    (strBytes (ContentStream.stream { content := "Hello" })).length = 38 ∧
    ContentStream.to_string { content := "Hello" } =
      "4 0 obj\n<< /Length 38 >>\nstream\nBT\n/F1 24 Tf\n100 700 Td\n(Hello) Tj\nET\nendstream\nendobj\n" := by
  refine ⟨by decide, by decide, by decide⟩

/-- C6 (amended): the `/Length` declared in object 4's dictionary is
computed from the encoded **byte** count of the operator block (Rust's
`String::len`), namely `33 + (byte length of the text)`, so it never
under-counts, including for non-ASCII input. -/
theorem c6_declared_length_is_byte_count (t : String) :
    (PdfDocument.new t).contents.to_string =
      "4 0 obj\n<< /Length " ++ Nat.repr (33 + (strBytes t).length) ++
        " >>\nstream\n" ++ streamBody t ++ "endstream\nendobj\n" := by
  rw [new_contents_str, contStr]
  have h1 : (strBytes "BT\n/F1 24 Tf\n100 700 Td\n(").length = 25 := by decide
  have h33 : rustLen (streamBody t) = 33 + (strBytes t).length := by
    have h2 : (strBytes ") Tj\nET\n").length = 8 := by decide
    simp only [rustLen, streamBody, strBytes_append, List.length_append, h1, h2]
    omega
  rw [h33]

/-- C6 counterexample: for the non-ASCII input `"é"` (one character, two
UTF-8 bytes) the declared `/Length` reads 35, the byte length of the
block, and not 34, its character count — the length is not computed from
the character count and does not under-count the byte length. -/
theorem c6_counterexample :
    (PdfDocument.new "é").contents.to_string =
      "4 0 obj\n<< /Length 35 >>\nstream\nBT\n/F1 24 Tf\n100 700 Td\n(é) Tj\nET\nendstream\nendobj\n" ∧
    (strBytes ((PdfDocument.new "é").contents.stream)).length = 35 ∧
    ((PdfDocument.new "é").contents.stream).data.length = 34 := by
  refine ⟨by decide, by decide, by decide⟩

/-- C7: every document built by `PdfDocument::new` has a page tree with
`count = 1` and exactly one kid, so both assertions in `Pages::to_string`
hold and serialization cannot panic. -/
theorem c7_page_tree_invariant (t : String) :
    (PdfDocument.new t).pages.kids.length = (PdfDocument.new t).pages.count ∧
    (PdfDocument.new t).pages.count = 1 ∧
    ((PdfDocument.new t).pages.to_string).isSome = true := by
  refine ⟨rfl, rfl, ?_⟩
  rw [new_pages_str]
  rfl

/-- C8: a failing sink operation (file creation, byte write, or position
query) aborts the build at that very step: every operation before the
first failure succeeded, nothing after it is executed (the returned state
is exactly the prefix run), nothing is retried, and one failure is
returned; `create` succeeds exactly when all 20 operations through the
final `"%%EOF"` write succeed, in which case the full file was written. -/
theorem c8_error_handling (m : Nat → Bool) (t : String) :
    (∀ s, PdfDocument.create m (PdfDocument.new t) = .ok s →
        (∀ i, i < 20 → m i = true) ∧ s = createPure (PdfDocument.new t)) ∧
    ((∀ i, i < 20 → m i = true) →
        PdfDocument.create m (PdfDocument.new t) = .ok (createPure (PdfDocument.new t))) ∧
    (∀ s, PdfDocument.create m (PdfDocument.new t) = .error s →
        m s.opCount = false ∧ s.opCount < 20 ∧
        (∀ i, i < s.opCount → m i = true) ∧
        s = runAll ((opsList (PdfDocument.new t)).take s.opCount) initState) := by
  have hlen : (opsList (PdfDocument.new t)).length = 20 := rfl
  have h0 : initState.opCount = 0 := rfl
  refine ⟨fun s hs => ?_, fun hall => ?_, fun s hs => ?_⟩
  · obtain ⟨h1, h2⟩ := runOps_ok m _ _ _ hs
    rw [h0, hlen] at h1
    exact ⟨fun i hi => h1 i (by omega) (by omega), h2⟩
  · refine runOps_all_ok m _ _ ?_
    intro i hi1 hi2
    rw [h0, hlen] at hi2
    exact hall i (by omega)
  · obtain ⟨h1, h2, h3, h4, h5⟩ := runOps_error m _ _ _ hs
    rw [h0] at h2 h4 h5
    rw [h0, hlen] at h3
    simp only [Nat.sub_zero] at h5
    exact ⟨h1, by omega, fun i hi => h4 i (by omega) hi, h5⟩

/-- Witness for C8: on the sink `failAt5` (whose sixth operation fails)
`create` on `"Hi"` stops right before operation 5 with all earlier
operations done, and on the always-succeeding sink it returns the full
file. -/
theorem c8_witness :
    failAt5 sErr.opCount = false ∧ sErr.opCount < 20 ∧
    (∀ i, i < sErr.opCount → failAt5 i = true) ∧
    sErr = runAll ((opsList (PdfDocument.new "Hi")).take sErr.opCount) initState ∧
    PdfDocument.create allOk (PdfDocument.new "Hi") =
      .ok (createPure (PdfDocument.new "Hi")) := by
  have h := (c8_error_handling failAt5 "Hi").2.2 sErr (by rfl)
  exact ⟨h.1, h.2.1, h.2.2.1, h.2.2.2,
    (c8_error_handling allOk "Hi").2.1 (by decide)⟩

/-- C9: the build is deterministic — any two successful runs on the same
input text (over any two sinks) produce byte-identical output. -/
theorem c9_deterministic (m m' : Nat → Bool) (t : String) (s s' : WState)
    (h : PdfDocument.create m (PdfDocument.new t) = .ok s)
    (h' : PdfDocument.create m' (PdfDocument.new t) = .ok s') :
    s.buf = s'.buf := by
  have h2 := (runOps_ok m _ _ _ h).2
  have h2' := (runOps_ok m' _ _ _ h').2
  rw [h2, h2']

/-- Witness for C9: two successful runs on `"Hi"`. -/
theorem c9_witness :
    (createPure (PdfDocument.new "Hi")).buf = (createPure (PdfDocument.new "Hi")).buf :=
  c9_deterministic allOk allOk "Hi"
    (createPure (PdfDocument.new "Hi")) (createPure (PdfDocument.new "Hi"))
    (by rfl) (by rfl)

/-- C10: for every input text the first recorded offset (object 1, the
catalog) is 9, the byte length of `"%PDF-1.4\n"`, and the first in-use
cross-reference entry in the output is the line
`"0000000009 00000 n\n"`. -/
theorem c10_first_offset_nine (t : String) :
    (offsetsOf t).getD 0 0 = 9 ∧
    rustLen headerStr = 9 ∧
    createBytes t = c10Pre t ++ strBytes "0000000009 00000 n\n" ++ c10Suf t := by
  refine ⟨?_, by decide, ?_⟩
  · rw [offsetsOf_eq]
    simp only [List.getD_cons_zero]
    decide
  · rw [createBytes_eq,
      show strBytes (entryStr o1) = strBytes "0000000009 00000 n\n" by decide]
    simp only [c10Pre, c10Suf, List.append_assoc]
